import Mathlib

/-!
# Verification of the rabbithole research-window subsystem

Shallow embedding of the window-tracking and selection-capture logic of
`main.go` (package main of the rabbithole repository).  External processes
(`wmctrl`, `xsel`, `xdotool`, firefox, the SQLite store) are modelled by
passing their observable results as explicit arguments; the embedded
functions reproduce the Go control flow over those results.
-/

namespace Rabbithole

/-! ## Go string primitives used by main.go -/

/-- Go `strings.HasPrefix s pre`. -/
def goHasPrefix (s pre : String) : Bool :=
  pre.data.isPrefixOf s.data

/-- Helper for `goContains`: does `sub` occur as a contiguous run of `cs`? -/
def containsAux (sub : List Char) : List Char → Bool
  | [] => sub.isEmpty
  | c :: cs => sub.isPrefixOf (c :: cs) || containsAux sub cs

/-- Go `strings.Contains s sub`. -/
def goContains (s sub : String) : Bool :=
  containsAux sub.data s.data

/-- Helper for `goFields`: split a character list on whitespace runs. -/
def goFieldsAux : List Char → List Char → List (List Char)
  | [], acc => if acc.isEmpty then [] else [acc.reverse]
  | c :: cs, acc =>
    if c.isWhitespace then
      if acc.isEmpty then goFieldsAux cs []
      else acc.reverse :: goFieldsAux cs []
    else goFieldsAux cs (c :: acc)

/-- Go `strings.Fields s`: the whitespace-separated tokens of `s`. -/
def goFields (s : String) : List String :=
  (goFieldsAux s.data []).map String.mk

/-- Go `strconv.Atoi` (64-bit platform): optional sign, decimal digits,
range-checked to `int64`; `none` models the non-nil error return. -/
def goAtoi (s : String) : Option Int :=
  let cs := s.data
  let sign : Int := if cs.head? = some '-' then -1 else 1
  let ds := if cs.head? = some '-' ∨ cs.head? = some '+' then cs.tail else cs
  if ds.isEmpty then none
  else if ds.all Char.isDigit then
    let n : Nat := ds.foldl (fun a c => a * 10 + (c.toNat - 48)) 0
    let v : Int := sign * n
    if v < -(2 ^ 63) ∨ 2 ^ 63 - 1 < v then none else some v
  else none

/-- Go `strings.TrimSpace s`: strip leading and trailing whitespace. -/
def goTrimSpace (s : String) : String :=
  String.mk ((s.data.dropWhile Char.isWhitespace).reverse.dropWhile Char.isWhitespace).reverse

/-- Left-pad a string with `'0'` to at least `width` characters. -/
def padZeros (width : Nat) (s : String) : String :=
  if width ≤ s.length then s
  else String.mk (List.replicate (width - s.length) '0') ++ s

/-- Go `fmt.Sprintf "0x%08x" v`: lowercase hex, zero-padded to a minimum
field width of 8 (the sign of a negative value counts toward the width). -/
def sprintfHex08 (v : Int) : String :=
  if 0 ≤ v then "0x" ++ padZeros 8 (String.mk (Nat.toDigits 16 v.toNat))
  else "0x-" ++ padZeros 7 (String.mk (Nat.toDigits 16 (-v).toNat))

/-! ## WindowID Normalizer (`normalizeWindowID`, main.go:71-80) -/

/-- Function `normalizeWindowID` from main.go: leave `0x`-prefixed input unchanged,
convert a decimal integer string to the `0x%08x` form, and pass anything
else through unchanged. -/
def normalizeWindowID (wid : String) : String :=
  if goHasPrefix wid "0x" then wid
  else
    match goAtoi wid with
    | some v => sprintfHex08 v
    | none => wid

/-! ## Research Window Registry (SQLite table `research_windows`)

The table has schema `(window_id TEXT PRIMARY KEY, created_at DATETIME)`
(main.go:627-632).  It is modelled as an association list with the
`window_id` key; `INSERT OR REPLACE` deletes a conflicting row and inserts
the new one, `DELETE ... WHERE window_id = ?` filters by key, and
`SELECT window_id FROM research_windows` lists the keys. -/

/-- The registry table: `(window_id, created_at)` rows. -/
abbrev Registry := List (String × Nat)

/-- Function `addResearchWindow` (main.go:433-443): normalize the ID, then
`INSERT OR REPLACE` the row keyed by it. -/
def addResearchWindow (reg : Registry) (wid : String) (now : Nat) : Registry :=
  let k := normalizeWindowID wid
  reg.filter (fun e => e.1 ≠ k) ++ [(k, now)]

/-- Function `getResearchWindows` (main.go:445-465): list all tracked window IDs. -/
def getResearchWindows (reg : Registry) : List String :=
  reg.map (fun e => e.1)

/-- Function `removeResearchWindow` (main.go:520-528): normalize the ID, then
`DELETE FROM research_windows WHERE window_id = ?`. -/
def removeResearchWindow (reg : Registry) (wid : String) : Registry :=
  reg.filter (fun e => e.1 ≠ normalizeWindowID wid)

/-- Timestamp stored for a window ID, via the primary key. -/
def lookupWindow (reg : Registry) (k : String) : Option Nat :=
  (reg.find? (fun e => e.1 = k)).map (fun e => e.2)

/-! ## Registry Reconciler (`cleanupDeadWindows`, main.go:467-518) -/

/-- The `currentWIDs` set built by `cleanupDeadWindows` (main.go:495-504):
the first whitespace-delimited token of every nonempty line of the
unfiltered `wmctrl -l` output, taken raw (not normalized). -/
def currentWIDsOfLines (lines : List String) : List String :=
  lines.filterMap (fun line =>
    if line = "" then none else (goFields line).head?)

/-- Core of `cleanupDeadWindows` (main.go:506-515) once the `wmctrl -l`
lines are in hand: for every stored ID absent from the live token set,
issue `removeResearchWindow`. -/
def cleanupDeadWindows (reg : Registry) (lines : List String) : Registry :=
  let storedWIDs := getResearchWindows reg
  let currentWIDs := currentWIDsOfLines lines
  storedWIDs.foldl
    (fun r wid => if currentWIDs.contains wid then r else removeResearchWindow r wid)
    reg

/-- Full run of `cleanupDeadWindows` (main.go:467-518): pairs the new
registry contents with the function's Go return value (`none` = the `nil`
error returned on line 517; removal failures are only logged). -/
def cleanupDeadWindowsRun (reg : Registry) (wmctrl : Except String (List String)) :
    Registry × Option String :=
  match wmctrl with
  | .error e => (reg, some ("couldn't get window list: " ++ e))
  | .ok lines => (cleanupDeadWindows reg lines, none)

/-- Modelled from the spec (§4.7, §3 invariant), for comparison with
`cleanupDeadWindows`: a reconciler whose membership test uses canonical
forms on both sides, keeping exactly the entries whose normalized stored
ID occurs among the normalized live-listing IDs. -/
def reconcileSpecNormalized (reg : Registry) (lines : List String) : Registry :=
  let current := (currentWIDsOfLines lines).map normalizeWindowID
  reg.filter (fun e => current.contains (normalizeWindowID e.1))

/-! ## New-Window Detector (`waitForNewFirefoxWindow`, main.go:82-106)

One poll per 100 ms tick until the 5 s deadline; each tick runs
`wmctrl -l` (failures are swallowed and retried next tick) and scans the
lines containing "Mozilla Firefox" for a normalized first token absent
from the pre-launch set.  The bounded sequence of ticks is modelled as a
finite list of `wmctrl` results; exhausting it is the deadline. -/

/-- The scan of one `wmctrl -l` listing (main.go:91-102): the first
normalized Firefox window ID not in `before`, if any. -/
def findNewFirefoxWID (before : List String) (lines : List String) : Option String :=
  lines.findSome? (fun line =>
    if goContains line "Mozilla Firefox" then
      match (goFields line).head? with
      | some tok =>
        let wid := normalizeWindowID tok
        if before.contains wid then none else some wid
      | none => none
    else none)

/-- Function `waitForNewFirefoxWindow` (main.go:82-106) over the bounded poll
sequence: `.error` is the Go timeout error return. -/
def waitForNewFirefoxWindow (before : List String) :
    List (Except String (List String)) → Except String String
  | [] => .error "timeout waiting for new Firefox window"
  | poll :: rest =>
    match poll with
    | .error _ => waitForNewFirefoxWindow before rest
    | .ok lines =>
      match findNewFirefoxWID before lines with
      | some wid => .ok wid
      | none => waitForNewFirefoxWindow before rest

/-! ## Lifecycle Orchestrator: open-and-track
(`openBrowserInSideWindow`, main.go:355-431) -/

/-- The pre-launch snapshot (main.go:360-373): normalized Firefox window
IDs of the `wmctrl -l` output; a failing listing silently yields the
empty set (`err == nil` guard on line 362). -/
def beforeWIDsOf (wmctrlBefore : Except String (List String)) : List String :=
  match wmctrlBefore with
  | .error _ => []
  | .ok lines =>
    lines.filterMap (fun line =>
      if goContains line "Mozilla Firefox" then
        (goFields line).head?.map normalizeWindowID
      else none)

/-- Observable outcome of `openBrowserInSideWindow`: the Go error return
(`none` = `nil`), whether the new window was registered, and the registry
contents afterwards. -/
structure OpenOutcome where
  result : Option String
  tracked : Bool
  registry : Registry
  deriving Repr, DecidableEq

/-- Function `openBrowserInSideWindow` (main.go:355-431) from the launch attempt
onwards: positioning failures (lines 407-423) are only logged and do not
alter the outcome, so they are not modelled as inputs.  `startOk` is the
success of `cmd.Start()`, `polls` feeds the detector, `trackOk` is the
success of the registry insert (a failure there is only a warning,
line 426-428). -/
def openBrowserInSideWindow (reg : Registry) (now : Nat)
    (wmctrlBefore : Except String (List String)) (startOk : Bool)
    (polls : List (Except String (List String))) (trackOk : Bool) : OpenOutcome :=
  if startOk then
    match waitForNewFirefoxWindow (beforeWIDsOf wmctrlBefore) polls with
    | .error e => ⟨some ("failed to detect new Firefox window: " ++ e), false, reg⟩
    | .ok wid =>
      if trackOk then ⟨none, true, addResearchWindow reg wid now⟩
      else ⟨none, false, reg⟩
  else ⟨some "failed to start firefox (is it installed?)", false, reg⟩

/-! ## Selection Capture Resolver (main.go:219-287) -/

/-- The selection-related fields of `Config.Behavior` (main.go:36-45). -/
structure Behavior where
  selectionMethod : String
  selectionTimeoutMs : Nat
  logSelections : Bool
  deriving Repr, DecidableEq

/-- The defaulting applied by `loadConfig` (main.go:207-213). -/
def applySelectionDefaults (b : Behavior) : Behavior :=
  let b1 := if b.selectionMethod = "" then { b with selectionMethod := "auto" } else b
  if b1.selectionTimeoutMs = 0 then { b1 with selectionTimeoutMs := 1000 } else b1

/-- The external `xsel` reads available to one capture invocation. -/
structure SelectionReads where
  primary : Except String String
  clipboard : Except String String
  deriving Repr

/-- Function `readXSelection` (main.go:219-237): dispatch on the selection type and
run `xsel` with the matching flag.  The command is run with no deadline of
any kind — the function has no timeout parameter to model. -/
def readXSelection (reads : SelectionReads) (selectionType : String) :
    Except String String :=
  if selectionType = "primary" then
    match reads.primary with
    | .ok out => .ok out
    | .error e => .error ("xsel failed: " ++ e)
  else if selectionType = "clipboard" then
    match reads.clipboard with
    | .ok out => .ok out
    | .error e => .error ("xsel failed: " ++ e)
  else .error ("invalid selection type: " ++ selectionType)

/-- Function `captureFromSelection` (main.go:266-287): read, trim, and reject
whitespace-only text (the log calls on lines 277-284 have no further
observable effect). -/
def captureFromSelection (reads : SelectionReads) (selectionType : String) :
    Except String String :=
  match readXSelection reads selectionType with
  | .error e => .error e
  | .ok text =>
    let trimmed := goTrimSpace text
    if trimmed = "" then .error (selectionType ++ " selection is empty")
    else .ok trimmed

/-- Function `captureSelectionSafely` (main.go:239-264): dispatch on the configured
method; `auto` (and any unrecognized method, via `fallthrough`/`default`)
tries `primary` then `clipboard` and fails only if both fail. -/
def captureSelectionSafely (b : Behavior) (reads : SelectionReads) :
    Except String String :=
  if b.selectionMethod = "manual" then .error "selection method set to manual"
  else if b.selectionMethod = "primary" then captureFromSelection reads "primary"
  else if b.selectionMethod = "clipboard" then captureFromSelection reads "clipboard"
  else
    match captureFromSelection reads "primary" with
    | .ok text => .ok text
    | .error _ =>
      match captureFromSelection reads "clipboard" with
      | .ok text => .ok text
      | .error _ => .error "no text in PRIMARY or CLIPBOARD selections"

/-! ## Lifecycle Orchestrator: close-if-tracked
(`closeActiveResearchWindow`, main.go:530-579) -/

/-- Observable outcome of `closeActiveResearchWindow`: the Go error
return (`none` = `nil`), the `xdotool windowclose` invocations issued,
the registry contents afterwards, and whether a store failure was
downgraded to a logged warning. -/
structure CloseOutcome where
  result : Option String
  closeCalls : List String
  registry : Registry
  storeWarning : Bool
  deriving Repr, DecidableEq

/-- Function `closeActiveResearchWindow` (main.go:530-579) after
`xdotool getactivewindow` has produced `activeWID`: clean up dead windows
(failure only logged), `COUNT(*)` the normalized active ID (`countErr`
injects a store read failure, surfaced on line 554), no-op silently when
untracked, otherwise close the window (`closeOk`) and delete the row
(`removeErr` injects a store write failure, only logged on line 574). -/
def closeActiveResearchWindow (reg : Registry) (activeWID : String)
    (wmctrl : Except String (List String)) (countErr : Option String)
    (closeOk : Bool) (removeErr : Option String) : CloseOutcome :=
  let normalizedActiveWID := normalizeWindowID activeWID
  let reg1 := (cleanupDeadWindowsRun reg wmctrl).1
  match countErr with
  | some e => ⟨some ("couldn't check research window status: " ++ e), [], reg1, false⟩
  | none =>
    let count := (reg1.filter (fun e => e.1 = normalizedActiveWID)).length
    if count = 0 then ⟨none, [], reg1, false⟩
    else if closeOk then
      match removeErr with
      | some _ => ⟨none, [activeWID], reg1, true⟩
      | none => ⟨none, [activeWID], removeResearchWindow reg1 activeWID, false⟩
    else ⟨some "failed to close window", [activeWID], reg1, false⟩

/-- Function `main` (main.go:1044-1051): a non-nil error from the executed command
produces exit status 1, otherwise 0. -/
def commandExitCode (result : Option String) : Nat :=
  match result with
  | some _ => 1
  | none => 0

/-! ## Helper lemmas about the normalizer -/

lemma data_0x_append (s : String) : ("0x" ++ s).data = '0' :: 'x' :: s.data := by
  have h : ("0x" : String).data = ['0', 'x'] := by decide
  simp [String.data_append, h]

lemma data_0xminus_append (s : String) : ("0x-" ++ s).data = '0' :: 'x' :: '-' :: s.data := by
  have h : ("0x-" : String).data = ['0', 'x', '-'] := by decide
  simp [String.data_append, h]

lemma goHasPrefix_0x_append (s : String) : goHasPrefix ("0x" ++ s) "0x" = true := by
  have h : ("0x" : String).data = ['0', 'x'] := by decide
  simp [goHasPrefix, data_0x_append, h, List.isPrefixOf]

lemma goHasPrefix_0xminus_append (s : String) :
    goHasPrefix ("0x-" ++ s) "0x" = true := by
  have h : ("0x" : String).data = ['0', 'x'] := by decide
  simp [goHasPrefix, data_0xminus_append, h, List.isPrefixOf]

/-- The `0x%08x` output always carries the `0x` prefix. -/
lemma goHasPrefix_sprintfHex08 (v : Int) : goHasPrefix (sprintfHex08 v) "0x" = true := by
  unfold sprintfHex08
  by_cases h : 0 ≤ v <;>
    simp [h, goHasPrefix_0x_append, goHasPrefix_0xminus_append]

/-- A string accepted by `normalizeWindowID` as `0x`-prefixed is returned
unchanged. -/
lemma normalizeWindowID_of_hasPrefix {s : String} (h : goHasPrefix s "0x" = true) :
    normalizeWindowID s = s := by
  simp [normalizeWindowID, h]

/-- The normalizer is idempotent. -/
lemma normalizeWindowID_idem (s : String) :
    normalizeWindowID (normalizeWindowID s) = normalizeWindowID s := by
  unfold normalizeWindowID
  by_cases h : goHasPrefix s "0x" = true
  · simp [h]
  · simp only [h]
    cases hA : goAtoi s with
    | none => simp [h, hA]
    | some v => simp [goHasPrefix_sprintfHex08 v]

/-- A string that parses as a decimal integer cannot carry the `0x`
prefix: the character `x` is not a digit. -/
lemma goHasPrefix_0x_of_goAtoi {s : String} {v : Int} (h : goAtoi s = some v) :
    goHasPrefix s "0x" = false := by
  by_contra hx
  rw [Bool.not_eq_false] at hx
  have hpre : ∃ t, s.data = '0' :: 'x' :: t := by
    unfold goHasPrefix at hx
    have h0x : ("0x" : String).data = ['0', 'x'] := by decide
    rw [h0x] at hx
    cases hd : s.data with
    | nil => rw [hd] at hx; simp [List.isPrefixOf] at hx
    | cons c cs =>
      rw [hd] at hx
      cases hcs : cs with
      | nil => rw [hcs] at hx; simp [List.isPrefixOf] at hx
      | cons c' cs' =>
        rw [hcs] at hx
        simp only [List.isPrefixOf, List.cons.injEq, Bool.and_eq_true, beq_iff_eq] at hx
        exact ⟨cs', by rw [← hx.1, ← hx.2.1]⟩
  obtain ⟨t, ht⟩ := hpre
  unfold goAtoi at h
  rw [ht] at h
  simp at h

/-! ## Helper lemmas about the reconciler -/

/-- Keys deleted by the reconciler sweep: the normalized forms of the
stored IDs absent from the live token set. -/
def deadKeys (cur ws : List String) : List String :=
  (ws.filter (fun w => !(cur.contains w))).map normalizeWindowID

lemma cleanup_foldl (cur : List String) (ws : List String) :
    ∀ r : Registry,
      ws.foldl (fun r wid => if cur.contains wid then r else removeResearchWindow r wid) r
        = r.filter (fun e => !((deadKeys cur ws).contains e.1)) := by
  induction ws with
  | nil =>
    intro r
    simp [deadKeys]
  | cons w ws ih =>
    intro r
    by_cases hw : cur.contains w = true
    · simp only [List.foldl_cons, hw, if_true, deadKeys, List.filter_cons, Bool.not_true,
        Bool.false_eq_true, if_false]
      exact ih r
    · rw [Bool.not_eq_true] at hw
      simp only [List.foldl_cons, hw, Bool.false_eq_true, if_false]
      rw [ih (removeResearchWindow r w)]
      unfold removeResearchWindow
      rw [List.filter_filter]
      have hw' : w ∉ cur := by simpa using hw
      have hdk : deadKeys cur (w :: ws) = normalizeWindowID w :: deadKeys cur ws := by
        simp [deadKeys, List.filter_cons, hw']
      rw [hdk]
      apply List.filter_congr
      intro a _
      by_cases hae : a.1 = normalizeWindowID w
      · simp [hae]
      · simp [hae]

/-- Characterization of the reconciler sweep: the registry keeps exactly
the rows whose key is not among the deleted keys. -/
lemma cleanupDeadWindows_eq_filter (reg : Registry) (lines : List String) :
    cleanupDeadWindows reg lines
      = reg.filter (fun e =>
          !((deadKeys (currentWIDsOfLines lines) (getResearchWindows reg)).contains e.1)) := by
  unfold cleanupDeadWindows
  exact cleanup_foldl _ _ reg

/-- With normalized stored keys, the sweep keeps exactly the rows whose
key occurs among the raw live tokens. -/
lemma cleanupDeadWindows_eq_filter_of_normalized (reg : Registry) (lines : List String)
    (h : ∀ e ∈ reg, normalizeWindowID e.1 = e.1) :
    cleanupDeadWindows reg lines
      = reg.filter (fun e => (currentWIDsOfLines lines).contains e.1) := by
  rw [cleanupDeadWindows_eq_filter]
  apply List.filter_congr
  intro a ha
  set cur := currentWIDsOfLines lines with hcur
  by_cases hc : a.1 ∈ cur
  · have h2 : a.1 ∉ deadKeys cur (getResearchWindows reg) := by
      simp only [deadKeys, getResearchWindows, List.mem_map, List.mem_filter, not_exists]
      intro x hx
      obtain ⟨⟨hxs, hxc⟩, hxn⟩ := hx
      obtain ⟨e, he, hex⟩ := hxs
      have hnx : normalizeWindowID x = x := by rw [← hex]; exact h e he
      rw [hnx] at hxn
      subst hxn
      simp at hxc
      exact hxc hc
    simp [hc, h2]
  · have h2 : a.1 ∈ deadKeys cur (getResearchWindows reg) := by
      simp only [deadKeys, getResearchWindows, List.mem_map, List.mem_filter]
      exact ⟨a.1, ⟨⟨a, ha, rfl⟩, by simpa using hc⟩, h a ha⟩
    simp [hc, h2]

/-! ## Claim theorems -/

/-- C6: a decimal string and the hex-prefixed, zero-padded (to 8 hex
digits) hex string denoting the same nonnegative integer normalize to the
same WindowID: the decimal form is mapped to the canonical `0x%08x` form,
and the already hex-prefixed form is returned unchanged. -/
theorem C6_decimal_hex_agree (d : String) (n : Nat)
    (hd : goAtoi d = some (Int.ofNat n)) :
    normalizeWindowID d = "0x" ++ padZeros 8 (String.mk (Nat.toDigits 16 n))
    ∧ normalizeWindowID ("0x" ++ padZeros 8 (String.mk (Nat.toDigits 16 n)))
        = "0x" ++ padZeros 8 (String.mk (Nat.toDigits 16 n))
    ∧ normalizeWindowID d
        = normalizeWindowID ("0x" ++ padZeros 8 (String.mk (Nat.toDigits 16 n))) := by
  have hpre := goHasPrefix_0x_of_goAtoi hd
  have h1 : normalizeWindowID d = "0x" ++ padZeros 8 (String.mk (Nat.toDigits 16 n)) := by
    simp only [normalizeWindowID, hpre, Bool.false_eq_true, if_false, hd]
    simp [sprintfHex08, Int.toNat_ofNat]
  have h2 : normalizeWindowID ("0x" ++ padZeros 8 (String.mk (Nat.toDigits 16 n)))
      = "0x" ++ padZeros 8 (String.mk (Nat.toDigits 16 n)) :=
    normalizeWindowID_of_hasPrefix (goHasPrefix_0x_append _)
  exact ⟨h1, h2, by rw [h1, h2]⟩

/-- Witness for C6 at `d = "123"`, `n = 123` (so `h = "0x0000007b"`). -/
theorem C6_witness :
    goAtoi "123" = some (Int.ofNat 123)
    ∧ normalizeWindowID "123"
        = normalizeWindowID ("0x" ++ padZeros 8 (String.mk (Nat.toDigits 16 123))) :=
  ⟨by decide, (C6_decimal_hex_agree "123" 123 (by decide)).2.2⟩

/-- C10: the normalizer returns any `0x`-prefixed input unchanged without
re-padding, so `"0x7b"` and `"123"` — two textual forms of the same
integer — map to distinct WindowIDs. -/
theorem C10_prefixed_input_unchanged :
    (∀ s : String, goHasPrefix s "0x" = true → normalizeWindowID s = s)
    ∧ normalizeWindowID "0x7b" = "0x7b"
    ∧ normalizeWindowID "123" = "0x0000007b"
    ∧ normalizeWindowID "0x7b" ≠ normalizeWindowID "123" :=
  ⟨fun _ h => normalizeWindowID_of_hasPrefix h, by decide, by decide, by decide⟩

/-- Witness for C10 at `s = "0x7b"`. -/
theorem C10_witness :
    goHasPrefix "0x7b" "0x" = true ∧ normalizeWindowID "0x7b" = "0x7b" :=
  ⟨by decide, C10_prefixed_input_unchanged.1 "0x7b" (by decide)⟩

/-- C7: registry upsert is idempotent with respect to membership —
re-upserting an ID leaves the table as if only the last upsert happened,
keeps `listAll`'s size unchanged, and refreshes the timestamp. -/
theorem C7_upsert_idempotent (reg : Registry) (wid : String) (t1 t2 : Nat) :
    addResearchWindow (addResearchWindow reg wid t1) wid t2
      = addResearchWindow reg wid t2
    ∧ (getResearchWindows (addResearchWindow (addResearchWindow reg wid t1) wid t2)).length
        = (getResearchWindows (addResearchWindow reg wid t1)).length
    ∧ lookupWindow (addResearchWindow (addResearchWindow reg wid t1) wid t2)
        (normalizeWindowID wid) = some t2 := by
  have hbase : addResearchWindow (addResearchWindow reg wid t1) wid t2
      = addResearchWindow reg wid t2 := by
    simp [addResearchWindow, List.filter_append, List.filter_filter]
  refine ⟨hbase, ?_, ?_⟩
  · rw [hbase]
    simp [getResearchWindows, addResearchWindow]
  · rw [hbase]
    unfold addResearchWindow lookupWindow
    rw [List.find?_append]
    have hnone : (reg.filter (fun e => e.1 ≠ normalizeWindowID wid)).find?
        (fun e => e.1 = normalizeWindowID wid) = none := by
      rw [List.find?_eq_none]
      intro x hx
      have := (List.mem_filter.mp hx).2
      simpa using this
    rw [hnone]
    simp

/-- C2 counterexample: on the claim's own `{A,B,C}` / `{B,D}` example the
reconciler run evaluates to the pruned registry paired with the Go `nil`
error return — the removed entries `A` and `C` are gone and `B` stays,
but the function's value carries no removed count (in particular not 2).
Moreover, for an arbitrary registry the removal set is not exact either:
a stored key `"123"` that is absent from an empty live set survives,
because the delete targets its normalized form `"0x0000007b"`. -/
theorem C2_counterexample_no_count :
    cleanupDeadWindowsRun [("0xa", 1), ("0xb", 2), ("0xc", 3)]
        (.ok ["0xb 0 host W1", "0xd 0 host W2"])
      = ([("0xb", 2)], none)
    ∧ cleanupDeadWindowsRun [("123", 0)] (.ok []) = ([("123", 0)], none) := by decide

/-- C2 amended: for every registry whose stored keys are normalized (as
every write path guarantees) and every live listing, the reconciler
removes exactly the tracked IDs absent from the live token set and
returns the `nil` error, not a removed count. -/
theorem C2_reconcile_removes_dead (reg : Registry) (lines : List String)
    (h : ∀ e ∈ reg, normalizeWindowID e.1 = e.1) :
    cleanupDeadWindowsRun reg (.ok lines)
      = (reg.filter (fun e => (currentWIDsOfLines lines).contains e.1), none) := by
  have hrun : cleanupDeadWindowsRun reg (.ok lines)
      = (cleanupDeadWindows reg lines, none) := rfl
  rw [hrun, cleanupDeadWindows_eq_filter_of_normalized reg lines h]

/-- Witness for C2 at the `{A,B,C}` / `{B,D}` example. -/
theorem C2_witness :
    (∀ e ∈ ([("0xa", 1), ("0xb", 2), ("0xc", 3)] : Registry),
      normalizeWindowID e.1 = e.1)
    ∧ cleanupDeadWindowsRun [("0xa", 1), ("0xb", 2), ("0xc", 3)]
        (.ok ["0xb 0 host W1", "0xd 0 host W2"])
      = (([("0xa", 1), ("0xb", 2), ("0xc", 3)] : Registry).filter
          (fun e => (currentWIDsOfLines ["0xb 0 host W1", "0xd 0 host W2"]).contains e.1),
         none) :=
  ⟨by decide, C2_reconcile_removes_dead _ _ (by decide)⟩

/-- C3 counterexample: the reconciler's membership test is NOT performed
on normalized forms on both sides.  The live listing reports window
`0x0000007b` in decimal (`"123"`); the raw token is compared unnormalized,
so the live tracked window is pruned, while the normalized-both-sides
reconciler modelled from the spec keeps it. -/
theorem C3_counterexample_raw_live_side :
    normalizeWindowID "123" = "0x0000007b"
    ∧ cleanupDeadWindows [("0x0000007b", 0)] ["123 0 host Research Window"] = []
    ∧ reconcileSpecNormalized [("0x0000007b", 0)] ["123 0 host Research Window"]
        = [("0x0000007b", 0)] := by decide

/-- C3 amended: the write paths (upsert and delete) do route IDs through
the normalizer — they behave identically on a raw ID and its canonical
form — but the reconciler's membership test takes the live tokens raw:
it agrees with the spec's normalized-both-sides contract only when the
live listing already reports canonical (normalize-fixed) IDs. -/
theorem C3_normalization_discipline :
    (∀ (reg : Registry) (wid : String) (now : Nat),
      addResearchWindow reg wid now = addResearchWindow reg (normalizeWindowID wid) now)
    ∧ (∀ (reg : Registry) (wid : String),
      removeResearchWindow reg wid = removeResearchWindow reg (normalizeWindowID wid))
    ∧ (∀ (reg : Registry) (lines : List String),
      (∀ e ∈ reg, normalizeWindowID e.1 = e.1) →
      (∀ tok ∈ currentWIDsOfLines lines, normalizeWindowID tok = tok) →
      cleanupDeadWindows reg lines = reconcileSpecNormalized reg lines) := by
  refine ⟨?_, ?_, ?_⟩
  · intro reg wid now
    simp [addResearchWindow, normalizeWindowID_idem]
  · intro reg wid
    simp [removeResearchWindow, normalizeWindowID_idem]
  · intro reg lines h htok
    rw [cleanupDeadWindows_eq_filter_of_normalized reg lines h]
    unfold reconcileSpecNormalized
    have hmap : (currentWIDsOfLines lines).map normalizeWindowID
        = currentWIDsOfLines lines := by
      conv_rhs => rw [← List.map_id (currentWIDsOfLines lines)]
      exact List.map_congr_left htok
    rw [hmap]
    apply List.filter_congr
    intro a ha
    rw [h a ha]

/-- Witness for C3 on a canonical live listing and normalized registry. -/
theorem C3_witness :
    (∀ e ∈ ([("0x0000007b", 0)] : Registry), normalizeWindowID e.1 = e.1)
    ∧ (∀ tok ∈ currentWIDsOfLines ["0x0000007b 0 host W"], normalizeWindowID tok = tok)
    ∧ cleanupDeadWindows [("0x0000007b", 0)] ["0x0000007b 0 host W"]
        = reconcileSpecNormalized [("0x0000007b", 0)] ["0x0000007b 0 host W"] :=
  ⟨by decide, by decide,
    C3_normalization_discipline.2.2 _ _ (by decide) (by decide)⟩

/-- C1 counterexample: when no new Firefox window appears before the
deadline, `openBrowserInSideWindow` does NOT proceed without tracking —
it returns the wrapped detection error, failing the open operation. -/
theorem C1_counterexample_timeout_fails_open :
    openBrowserInSideWindow [] 0 (.ok ["0x00000001 0 host Mozilla Firefox"]) true
        [.ok ["0x00000001 0 host Mozilla Firefox"]] true
      = ⟨some "failed to detect new Firefox window: timeout waiting for new Firefox window",
         false, []⟩ := by decide

/-- C1 amended: if the New-Window Detector times out (or otherwise
fails), `openBrowserInSideWindow` returns a non-nil error wrapping the
detection failure, performs no tracking, leaves the registry unchanged,
and the command exits non-zero — even though Firefox was started. -/
theorem C1_timeout_aborts_open (reg : Registry) (now : Nat)
    (wmctrlBefore : Except String (List String))
    (polls : List (Except String (List String))) (trackOk : Bool) (e : String)
    (h : waitForNewFirefoxWindow (beforeWIDsOf wmctrlBefore) polls = .error e) :
    openBrowserInSideWindow reg now wmctrlBefore true polls trackOk
      = ⟨some ("failed to detect new Firefox window: " ++ e), false, reg⟩
    ∧ commandExitCode
        (openBrowserInSideWindow reg now wmctrlBefore true polls trackOk).result = 1 := by
  constructor
  · simp [openBrowserInSideWindow, h]
  · simp [openBrowserInSideWindow, h, commandExitCode]

/-- Witness for C1 with an exhausted (empty) poll budget. -/
theorem C1_witness :
    waitForNewFirefoxWindow (beforeWIDsOf (.error "w")) []
      = .error "timeout waiting for new Firefox window"
    ∧ openBrowserInSideWindow [] 5 (.error "w") true [] true
      = ⟨some ("failed to detect new Firefox window: "
               ++ "timeout waiting for new Firefox window"), false, []⟩ :=
  ⟨rfl, (C1_timeout_aborts_open [] 5 (.error "w") [] true _ rfl).1⟩

/-- C8: closing when the active window's normalized ID is not tracked is
a silent no-op — the command returns `nil` (given a working store read)
and no external close call is issued. -/
theorem C8_untracked_close_is_noop (reg : Registry) (activeWID : String)
    (wmctrl : Except String (List String)) (closeOk : Bool) (removeErr : Option String)
    (h : ∀ e ∈ reg, e.1 ≠ normalizeWindowID activeWID) :
    closeActiveResearchWindow reg activeWID wmctrl none closeOk removeErr
      = ⟨none, [], (cleanupDeadWindowsRun reg wmctrl).1, false⟩ := by
  have hsub : ∀ e ∈ (cleanupDeadWindowsRun reg wmctrl).1, e ∈ reg := by
    intro e he
    cases wmctrl with
    | error er => simpa [cleanupDeadWindowsRun] using he
    | ok lines =>
      have hrun : (cleanupDeadWindowsRun reg (.ok lines)).1
          = cleanupDeadWindows reg lines := rfl
      rw [hrun, cleanupDeadWindows_eq_filter] at he
      exact (List.mem_filter.mp he).1
  have hcount : ((cleanupDeadWindowsRun reg wmctrl).1.filter
      (fun e => e.1 = normalizeWindowID activeWID)) = [] := by
    rw [List.filter_eq_nil_iff]
    intro a ha
    simpa using h a (hsub a ha)
  unfold closeActiveResearchWindow
  simp [hcount]

/-- Witness for C8: active window `0x00000002` against a registry
tracking only `0x00000001`. -/
theorem C8_witness :
    (∀ e ∈ ([("0x00000001", 5)] : Registry), e.1 ≠ normalizeWindowID "0x00000002")
    ∧ closeActiveResearchWindow [("0x00000001", 5)] "0x00000002" (.error "no wmctrl")
        none true none
      = ⟨none, [], [("0x00000001", 5)], false⟩ :=
  ⟨by decide,
    C8_untracked_close_is_noop [("0x00000001", 5)] "0x00000002" (.error "no wmctrl")
      true none (by decide)⟩

/-- C9 counterexample: on a tracked window, with the external close
succeeding but the registry delete failing, the close command still
returns `nil` (exit 0) and only records a warning — the store write
failure is not surfaced as a command failure. -/
theorem C9_counterexample_delete_failure_ignored :
    closeActiveResearchWindow [("0x0000007b", 0)] "0x0000007b" (.error "w") none true
        (some "disk I/O error")
      = ⟨none, ["0x0000007b"], [("0x0000007b", 0)], true⟩
    ∧ commandExitCode (closeActiveResearchWindow [("0x0000007b", 0)] "0x0000007b"
        (.error "w") none true (some "disk I/O error")).result = 0 := by decide

/-- C9 amended: during an explicit close, a failure of the registry READ
(the membership query) is surfaced as a command failure with non-zero
exit, but a failure of the registry DELETE after the external close is
only logged as a warning and the command exits zero. -/
theorem C9_read_fails_write_warns (reg : Registry) (activeWID : String)
    (wmctrl : Except String (List String)) (e : String)
    (closeOk : Bool) (removeErr : Option String) :
    (closeActiveResearchWindow reg activeWID wmctrl (some e) closeOk removeErr).result
        = some ("couldn't check research window status: " ++ e)
    ∧ commandExitCode
        (closeActiveResearchWindow reg activeWID wmctrl (some e) closeOk removeErr).result = 1
    ∧ (closeActiveResearchWindow reg activeWID wmctrl none true (some e)).result = none
    ∧ commandExitCode
        (closeActiveResearchWindow reg activeWID wmctrl none true (some e)).result = 0 := by
  refine ⟨by simp [closeActiveResearchWindow], by simp [closeActiveResearchWindow, commandExitCode], ?_, ?_⟩
  · unfold closeActiveResearchWindow
    by_cases hcount : ((cleanupDeadWindowsRun reg wmctrl).1.filter
        (fun en => en.1 = normalizeWindowID activeWID)).length = 0 <;>
      simp [hcount]
  · unfold closeActiveResearchWindow
    by_cases hcount : ((cleanupDeadWindowsRun reg wmctrl).1.filter
        (fun en => en.1 = normalizeWindowID activeWID)).length = 0 <;>
      simp [hcount, commandExitCode]

/-- C4: the configured `selection_timeout_ms` is parsed and defaulted to
1000, but it is dead configuration — no selection read consults it, so
the capture result is independent of its value (`readXSelection` runs
`xsel` with no deadline at all). -/
theorem C4_selection_timeout_unused (b : Behavior) (t : Nat) (reads : SelectionReads) :
    captureSelectionSafely { b with selectionTimeoutMs := t } reads
      = captureSelectionSafely b reads
    ∧ (applySelectionDefaults { b with selectionTimeoutMs := 0 }).selectionTimeoutMs = 1000
    ∧ (applySelectionDefaults { b with selectionTimeoutMs := 1000 }).selectionTimeoutMs
        = 1000 := by
  refine ⟨rfl, ?_, ?_⟩ <;>
    · unfold applySelectionDefaults
      by_cases hm : b.selectionMethod = "" <;> simp [hm]

/-- C5: under the `auto` policy, capture tries `primary` then
`clipboard` in that fixed order and returns the first successful
(non-whitespace-only) read; a whitespace-only PRIMARY with CLIPBOARD
`"foo"` yields `"foo"` produced by the clipboard read, and two failures
yield the no-selection error. -/
theorem C5_auto_order (b : Behavior) (reads : SelectionReads)
    (hb : b.selectionMethod = "auto") :
    (∀ t, captureFromSelection reads "primary" = .ok t →
        captureSelectionSafely b reads = .ok t)
    ∧ (∀ ep t, captureFromSelection reads "primary" = .error ep →
        captureFromSelection reads "clipboard" = .ok t →
        captureSelectionSafely b reads = .ok t
        ∧ captureSelectionSafely b reads = captureFromSelection reads "clipboard")
    ∧ (∀ ep ec, captureFromSelection reads "primary" = .error ep →
        captureFromSelection reads "clipboard" = .error ec →
        captureSelectionSafely b reads
          = .error "no text in PRIMARY or CLIPBOARD selections")
    ∧ (reads.primary = .ok "   " → reads.clipboard = .ok "foo" →
        captureSelectionSafely b reads = .ok "foo"
        ∧ captureFromSelection reads "clipboard" = .ok "foo") := by
  have hcap : captureSelectionSafely b reads
      = match captureFromSelection reads "primary" with
        | .ok text => .ok text
        | .error _ =>
          match captureFromSelection reads "clipboard" with
          | .ok text => .ok text
          | .error _ => .error "no text in PRIMARY or CLIPBOARD selections" := by
    unfold captureSelectionSafely
    rw [hb]
    simp
  refine ⟨?_, ?_, ?_, ?_⟩
  · intro t hp
    rw [hcap, hp]
  · intro ep t hp hc
    rw [hcap, hp, hc]
    exact ⟨rfl, rfl⟩
  · intro ep ec hp hc
    rw [hcap, hp, hc]
  · intro hp hc
    have htrim1 : goTrimSpace "   " = "" := by decide
    have htrim2 : goTrimSpace "foo" = "foo" := by decide
    have h1 : captureFromSelection reads "primary" = .error "primary selection is empty" := by
      unfold captureFromSelection readXSelection
      rw [hp]
      simp [htrim1]
    have h2 : captureFromSelection reads "clipboard" = .ok "foo" := by
      unfold captureFromSelection readXSelection
      rw [hc]
      simp [htrim2]
    rw [hcap, h1, h2]
    exact ⟨rfl, rfl⟩

/-- Witness for C5: whitespace-only PRIMARY, CLIPBOARD holding `"foo"`. -/
theorem C5_witness :
    (⟨"auto", 1000, false⟩ : Behavior).selectionMethod = "auto"
    ∧ captureSelectionSafely ⟨"auto", 1000, false⟩ ⟨.ok "   ", .ok "foo"⟩ = .ok "foo" :=
  ⟨rfl, ((C5_auto_order ⟨"auto", 1000, false⟩ ⟨.ok "   ", .ok "foo"⟩ rfl).2.2.2 rfl rfl).1⟩

end Rabbithole
